import Mathlib

/-!
Shallow embedding of the reconciliation logic of the two Ansible modules
`endpoint_central_patch_config.py` and `service_desk_plus_request.py`.

Remote JSON objects are modelled as Lean structures holding exactly the
fields the Python code reads.  Network calls are modelled by passing the
decoded payloads (and, where the code branches on it, the HTTP status
code) in an environment record.  `module.fail_json` terminates the module
run, so the run functions return the final `changed`/`failed` outcome
directly, together with a count of the mutating calls that were issued.
-/

deriving instance DecidableEq for Except

/-- Entry of the `allsystems` inventory collection: the fields read by
`get_resource_ids_for_patching` (`resource_id` is modelled after the
`int(...)` conversion applied by the code). -/
structure SystemEntry where
  resource_name : String
  resource_id : Int
deriving DecidableEq

/-- Entry of the `allpatches` catalog: the fields read by `patch_hosts`
(`missing` is modelled after the `int(...)` conversion applied by the code). -/
structure Patch where
  patch_description : String
  missing : Int
  patch_id : Int
deriving DecidableEq

/-- Entry of the `deploymentpolicies` collection. -/
structure DeploymentPolicy where
  template_name : String
  template_id : Int
deriving DecidableEq

/-- Entry of the `viewconfig` collection: the fields read by
`check_if_config_exists`. -/
structure ViewConfig where
  collection_name : String
  is_collection_deleted : Bool
  total_target_count : Nat
  status_label : String
deriving DecidableEq

/-- The JSON payload POSTed to `patch/installpatch` by `patch_hosts`. -/
structure InstallPayload where
  PatchIDs : List Int
  ResourceIDs : List Int
  ConfigName : String
  ConfigDescription : String
  actionToPerform : String
  DeploymentPolicyTemplateID : Int
deriving DecidableEq

/-- Decoded create response as inspected by both reconcilers: the
`status` and `error_code` fields read at the classification site.  The
same shape models the unwrapped `request` object of the ticket module. -/
structure CreateResp where
  status : String
  error_code : String
deriving DecidableEq

/-- Helper for Python `str.split()`: split a character list on whitespace
runs, dropping empty tokens; `cur` holds the reversed current token. -/
def pySplitAux (cur : List Char) : List Char → List (List Char)
  | [] => if cur = [] then [] else [cur.reverse]
  | c :: cs =>
    if c.isWhitespace then
      if cur = [] then pySplitAux [] cs else cur.reverse :: pySplitAux [] cs
    else
      pySplitAux (c :: cur) cs

/-- Python `str.split()` with no argument: split on whitespace runs,
dropping empty tokens. -/
def pySplit (s : String) : List String :=
  (pySplitAux [] s.toList).map fun l => String.mk l

/-- Python `set(label.split()).issubset(set(desc.split()))` from the patch
selector of `patch_hosts`. -/
def token_subset (label desc : String) : Bool :=
  (pySplit label).all fun t => (pySplit desc).contains t

/-- Tests whether the first character list begins the second one. -/
def beginsList : List Char → List Char → Bool
  | [], _ => true
  | _ :: _, [] => false
  | a :: as, b :: bs => a == b && beginsList as bs

/-- Python `s.startswith(pre)` on strings. -/
def py_startswith (s pre : String) : Bool :=
  beginsList pre.toList s.toList

/-- Tests whether the first character list occurs contiguously in the
second one. -/
def containsSub (needle : List Char) : List Char → Bool
  | [] => needle.isEmpty
  | c :: cs => beginsList needle (c :: cs) || containsSub needle cs

/-- Python `s in t` on strings: substring containment. -/
def py_substr (s t : String) : Bool :=
  containsSub s.toList t.toList

/-- Embedding of `get_resource_ids_for_patching` (identical in both
modules), with the fetched `allsystems` inventory passed explicitly:
filter the inventory to entries whose `resource_name` is in `hosts` and
map to their `resource_id`. -/
def get_resource_ids_for_patching (all_systems : List SystemEntry)
    (hosts : List String) : List Int :=
  ((all_systems.filter fun x => hosts.contains x.resource_name).map
    fun x => x.resource_id)

/-- Embedding of the `selected_patches` list comprehension in
`patch_hosts`: keep the patches whose description token-set contains the
token-set of some requested patch type and whose `missing` count is
positive. -/
def selected_patches (all_patches : List Patch) (patch_types : List String) :
    List Patch :=
  all_patches.filter fun x =>
    (patch_types.any fun utype => token_subset utype x.patch_description)
      && decide (x.missing > 0)

/-- Embedding of the `next(x for ... if x["template_name"] == policy_name)`
policy lookup in `patch_hosts`: first exact `template_name` match. -/
def find_policy (policies : List DeploymentPolicy) (policy_name : String) :
    Option DeploymentPolicy :=
  policies.find? fun x => x.template_name == policy_name

/-- Environment of one run of the patch-config module: the collections the
module fetches and the decoded response the `installpatch` POST would
return. -/
structure PatchEnv where
  viewconfig : List ViewConfig
  allsystems : List SystemEntry
  allpatches : List Patch
  deploymentpolicies : List DeploymentPolicy
  createResp : CreateResp
deriving DecidableEq

/-- Embedding of `patch_hosts`: build the `installpatch` payload and issue
the POST.  `Except.error ()` is the `fail_json` taken on `StopIteration`
when no deployment policy matches (the POST is then never reached); on
success the pair holds the POSTed payload and the decoded response. -/
def patch_hosts (env : PatchEnv) (config_name config_desc policy_name : String)
    (hosts patch_types : List String) :
    Except Unit (InstallPayload × CreateResp) :=
  let resource_ids := get_resource_ids_for_patching env.allsystems hosts
  let patch_ids := (selected_patches env.allpatches patch_types).map
    fun x => x.patch_id
  match find_policy env.deploymentpolicies policy_name with
  | none => Except.error ()
  | some pol =>
      Except.ok
        ({ PatchIDs := patch_ids
           ResourceIDs := resource_ids
           ConfigName := config_name
           ConfigDescription := config_desc
           actionToPerform := "Deploy"
           DeploymentPolicyTemplateID := pol.template_id }, env.createResp)

/-- Embedding of `check_if_config_exists` from the patch-config module. -/
def check_if_config_exists (config_name : String) (configs : List ViewConfig)
    (hosts : List String) : Bool :=
  configs.any fun config =>
    py_startswith config.collection_name config_name
      && !config.is_collection_deleted
      && config.total_target_count == hosts.length
      && config.status_label != "dc.db.config.status.executed"

/-- Outcome of a patch-config module run: the `changed`/`failed` result
fields plus the number of mutating (`installpatch` POST) calls issued. -/
structure PatchResult where
  changed : Bool
  failed : Bool
  postCalls : Nat
deriving DecidableEq

/-- Embedding of `run_module` of the patch-config module (argument choices
restrict `state` to `present`; any other value leaves the seeded result).
`fail_json` exits the module, so each failing branch returns its final
outcome directly. -/
def run_patch_module (env : PatchEnv) (name desc policy_name : String)
    (hosts patch_types : List String) (state : String) : PatchResult :=
  let config_exists := check_if_config_exists name env.viewconfig hosts
  if state = "present" then
    if config_exists then
      { changed := false, failed := false, postCalls := 0 }
    else
      match patch_hosts env name desc policy_name hosts patch_types with
      | Except.error _ => { changed := false, failed := true, postCalls := 0 }
      | Except.ok (_, resp) =>
          if resp.status = "error" then
            if resp.error_code = "3010" then
              { changed := false, failed := false, postCalls := 1 }
            else
              { changed := false, failed := true, postCalls := 1 }
          else
            { changed := true, failed := false, postCalls := 1 }
  else
    { changed := false, failed := false, postCalls := 0 }

/-- Entry of the service-desk `requests` collection: the fields read by
`find_request` (`status_name` models `request["status"]["name"]`). -/
structure Request where
  subject : String
  status_name : String
  short_description : String
  id : Int
deriving DecidableEq

/-- Evaluation of the matching condition of `find_request` on one request,
with Python left-to-right short-circuiting made explicit: when
`patch_types` is `none` (parameter omitted), iterating it raises a
`TypeError`, reached only if the three preceding conjuncts held. -/
def request_check (request_name : String) (hosts : List String)
    (patch_types : Option (List String)) (r : Request) : Except Unit Bool :=
  if py_startswith r.subject request_name then
    if r.status_name == "Open" then
      if hosts.all fun s => py_substr s r.short_description then
        match patch_types with
        | none => Except.error ()
        | some pts => Except.ok (pts.all fun s => py_substr s r.short_description)
      else Except.ok false
    else Except.ok false
  else Except.ok false

/-- Embedding of `find_request`: first request matching the condition, or
`none`; `Except.error ()` is the exception path (caught and turned into a
`fail_json` with `changed=False, failed=True`). -/
def find_request (request_name : String) (hosts : List String)
    (patch_types : Option (List String)) :
    List Request → Except Unit (Option Request)
  | [] => Except.ok none
  | r :: rs =>
    match request_check request_name hosts patch_types r with
    | Except.error e => Except.error e
    | Except.ok true => Except.ok (some r)
    | Except.ok false => find_request request_name hosts patch_types rs

/-- Decoded body of the ticket-create POST response: the object under the
`request` envelope key, plus a top-level `status` field that the code
never inspects (the classification reads the unwrapped object only). -/
structure TicketCreateBody where
  request : CreateResp
  status : String
deriving DecidableEq

/-- Embedding of the response handling of `create_tms_request`: on HTTP
200/201 return only the object under the body top-level `request` key;
any other status raises (caught by the outer handler of `run_module`). -/
def create_tms_request (status_code : Nat) (body : TicketCreateBody) :
    Except Unit CreateResp :=
  if status_code = 200 ∨ status_code = 201 then Except.ok body.request
  else Except.error ()

/-- The `response_status` object of a delete response. -/
structure RespStatus where
  status : String
deriving DecidableEq

/-- Decoded body of the `move_to_trash` DELETE response. -/
structure DeleteBody where
  response_status : RespStatus
deriving DecidableEq

/-- Embedding of the response handling of `delete_tms_ticket`: on HTTP
200/201 return the decoded body, otherwise raise. -/
def delete_tms_ticket (status_code : Nat) (body : DeleteBody) :
    Except Unit DeleteBody :=
  if status_code = 200 ∨ status_code = 201 then Except.ok body
  else Except.error ()

/-- Environment of one run of the ticket module: the fetched `requests`
collection and the HTTP status code and decoded body that the create POST
and the delete call would produce. -/
structure TicketEnv where
  requests : List Request
  createStatusCode : Nat
  createBody : TicketCreateBody
  deleteStatusCode : Nat
  deleteBody : DeleteBody
deriving DecidableEq

/-- Outcome of a ticket module run: the `changed`/`failed` result fields
plus counts of the mutating calls (create POST and delete) issued. -/
structure TicketResult where
  changed : Bool
  failed : Bool
  postCalls : Nat
  deleteCalls : Nat
deriving DecidableEq

/-- Embedding of `run_module` of the ticket module.  `find_request` runs
before the state branch; its exception path is a `fail_json` with
`changed=False, failed=True` issued before any mutating call. -/
def run_ticket_module (env : TicketEnv) (name : String) (hosts : List String)
    (patch_types : Option (List String)) (state : String) : TicketResult :=
  match find_request name hosts patch_types env.requests with
  | Except.error _ =>
      { changed := false, failed := true, postCalls := 0, deleteCalls := 0 }
  | Except.ok request =>
    if state = "present" then
      match request with
      | some _ =>
          { changed := false, failed := false, postCalls := 0, deleteCalls := 0 }
      | none =>
        match create_tms_request env.createStatusCode env.createBody with
        | Except.error _ =>
            { changed := false, failed := true, postCalls := 1, deleteCalls := 0 }
        | Except.ok resp =>
            if resp.status = "error" then
              if resp.error_code = "3010" then
                { changed := false, failed := false, postCalls := 1, deleteCalls := 0 }
              else
                { changed := false, failed := true, postCalls := 1, deleteCalls := 0 }
            else
              { changed := true, failed := false, postCalls := 1, deleteCalls := 0 }
    else if state = "absent" then
      match request with
      | none =>
          { changed := false, failed := false, postCalls := 0, deleteCalls := 0 }
      | some _ =>
        match delete_tms_ticket env.deleteStatusCode env.deleteBody with
        | Except.error _ =>
            { changed := false, failed := true, postCalls := 0, deleteCalls := 1 }
        | Except.ok resp =>
            if resp.response_status.status = "success" then
              { changed := true, failed := false, postCalls := 0, deleteCalls := 1 }
            else
              { changed := false, failed := true, postCalls := 0, deleteCalls := 1 }
    else
      { changed := false, failed := false, postCalls := 0, deleteCalls := 0 }

/-- C1: in both modules, once the create call is reached (desired state
present, matcher reports no existing object, and in the patch module a
deployment policy resolves; in the ticket module the POST returns HTTP
200/201), a create response with status "error" and vendor error code
"3010" yields changed=false and failed=false, status "error" with any
other code yields failed=true, and any status other than "error" yields
changed=true and failed=false. -/
theorem create_error_classification :
    (∀ (env : PatchEnv) (nm ds pn : String) (hosts pts : List String),
      check_if_config_exists nm env.viewconfig hosts = false →
      (find_policy env.deploymentpolicies pn).isSome = true →
      ((env.createResp.status = "error" ∧ env.createResp.error_code = "3010" →
          run_patch_module env nm ds pn hosts pts "present" =
            { changed := false, failed := false, postCalls := 1 }) ∧
        (env.createResp.status = "error" ∧ env.createResp.error_code ≠ "3010" →
          (run_patch_module env nm ds pn hosts pts "present").failed = true) ∧
        (env.createResp.status ≠ "error" →
          run_patch_module env nm ds pn hosts pts "present" =
            { changed := true, failed := false, postCalls := 1 }))) ∧
    (∀ (env : TicketEnv) (nm : String) (hosts : List String)
        (pts : Option (List String)),
      find_request nm hosts pts env.requests = Except.ok none →
      (env.createStatusCode = 200 ∨ env.createStatusCode = 201) →
      ((env.createBody.request.status = "error" ∧
          env.createBody.request.error_code = "3010" →
          run_ticket_module env nm hosts pts "present" =
            { changed := false, failed := false, postCalls := 1, deleteCalls := 0 }) ∧
        (env.createBody.request.status = "error" ∧
          env.createBody.request.error_code ≠ "3010" →
          (run_ticket_module env nm hosts pts "present").failed = true) ∧
        (env.createBody.request.status ≠ "error" →
          run_ticket_module env nm hosts pts "present" =
            { changed := true, failed := false, postCalls := 1, deleteCalls := 0 }))) := by
  constructor
  · intro env nm ds pn hosts pts hconf hpol
    obtain ⟨pol, hp⟩ := Option.isSome_iff_exists.mp hpol
    refine ⟨?_, ?_, ?_⟩
    · rintro ⟨h1, h2⟩
      simp [run_patch_module, patch_hosts, hconf, hp, h1, h2]
    · rintro ⟨h1, h2⟩
      simp [run_patch_module, patch_hosts, hconf, hp, h1, h2]
    · intro h1
      simp [run_patch_module, patch_hosts, hconf, hp, h1]
  · intro env nm hosts pts hfind hsc
    have hcr : create_tms_request env.createStatusCode env.createBody =
        Except.ok env.createBody.request := by
      unfold create_tms_request
      exact if_pos hsc
    refine ⟨?_, ?_, ?_⟩
    · rintro ⟨h1, h2⟩
      simp [run_ticket_module, hfind, hcr, h1, h2]
    · rintro ⟨h1, h2⟩
      simp [run_ticket_module, hfind, hcr, h1, h2]
    · intro h1
      simp [run_ticket_module, hfind, hcr, h1]

/-- Witness for C1: concrete runs of both modules through the create
branch, one per classification case. -/
theorem create_error_classification_witness :
    run_patch_module
        { viewconfig := [], allsystems := [], allpatches := [],
          deploymentpolicies := [{ template_name := "p", template_id := 7 }],
          createResp := { status := "error", error_code := "3010" } }
        "n" "d" "p" ["h"] [] "present" =
      { changed := false, failed := false, postCalls := 1 } ∧
    (run_patch_module
        { viewconfig := [], allsystems := [], allpatches := [],
          deploymentpolicies := [{ template_name := "p", template_id := 7 }],
          createResp := { status := "error", error_code := "42" } }
        "n" "d" "p" ["h"] [] "present").failed = true ∧
    run_ticket_module
        { requests := [],
          createStatusCode := 200,
          createBody := { request := { status := "ok", error_code := "" },
                          status := "irrelevant" },
          deleteStatusCode := 200,
          deleteBody := { response_status := { status := "success" } } }
        "n" ["h"] (some []) "present" =
      { changed := true, failed := false, postCalls := 1, deleteCalls := 0 } :=
  ⟨(create_error_classification.1
      { viewconfig := [], allsystems := [], allpatches := [],
        deploymentpolicies := [{ template_name := "p", template_id := 7 }],
        createResp := { status := "error", error_code := "3010" } }
      "n" "d" "p" ["h"] [] (by decide) (by decide)).1 (by decide),
   (create_error_classification.1
      { viewconfig := [], allsystems := [], allpatches := [],
        deploymentpolicies := [{ template_name := "p", template_id := 7 }],
        createResp := { status := "error", error_code := "42" } }
      "n" "d" "p" ["h"] [] (by decide) (by decide)).2.1 (by decide),
   (create_error_classification.2
      { requests := [],
        createStatusCode := 200,
        createBody := { request := { status := "ok", error_code := "" },
                        status := "irrelevant" },
        deleteStatusCode := 200,
        deleteBody := { response_status := { status := "success" } } }
      "n" ["h"] (some []) (by decide) (by decide)).2.2 (by decide)⟩

/-- C2: with desired state present and the existence matcher reporting an
already existing match, neither module issues any mutating call and the
outcome is changed=false, failed=false. -/
theorem present_exists_noop :
    (∀ (env : PatchEnv) (nm ds pn : String) (hosts pts : List String),
      check_if_config_exists nm env.viewconfig hosts = true →
      run_patch_module env nm ds pn hosts pts "present" =
        { changed := false, failed := false, postCalls := 0 }) ∧
    (∀ (env : TicketEnv) (nm : String) (hosts : List String)
        (pts : Option (List String)) (req : Request),
      find_request nm hosts pts env.requests = Except.ok (some req) →
      run_ticket_module env nm hosts pts "present" =
        { changed := false, failed := false, postCalls := 0, deleteCalls := 0 }) := by
  constructor
  · intro env nm ds pn hosts pts hconf
    simp [run_patch_module, hconf]
  · intro env nm hosts pts req hfind
    simp [run_ticket_module, hfind]

/-- Witness for C2: concrete runs of both modules where the matcher
reports an existing object. -/
theorem present_exists_noop_witness :
    run_patch_module
        { viewconfig := [{ collection_name := "Ansible patch", is_collection_deleted := false,
                           total_target_count := 1, status_label := "dc.db.config.status.ready" }],
          allsystems := [], allpatches := [], deploymentpolicies := [],
          createResp := { status := "", error_code := "" } }
        "Ansible" "d" "p" ["h"] [] "present" =
      { changed := false, failed := false, postCalls := 0 } ∧
    run_ticket_module
        { requests := [{ subject := "Req one", status_name := "Open",
                         short_description := "", id := 1 }],
          createStatusCode := 200,
          createBody := { request := { status := "", error_code := "" }, status := "" },
          deleteStatusCode := 200,
          deleteBody := { response_status := { status := "" } } }
        "Req" [] (some []) "present" =
      { changed := false, failed := false, postCalls := 0, deleteCalls := 0 } :=
  ⟨present_exists_noop.1
      { viewconfig := [{ collection_name := "Ansible patch", is_collection_deleted := false,
                         total_target_count := 1, status_label := "dc.db.config.status.ready" }],
        allsystems := [], allpatches := [], deploymentpolicies := [],
        createResp := { status := "", error_code := "" } }
      "Ansible" "d" "p" ["h"] [] (by decide),
   present_exists_noop.2
      { requests := [{ subject := "Req one", status_name := "Open",
                       short_description := "", id := 1 }],
        createStatusCode := 200,
        createBody := { request := { status := "", error_code := "" }, status := "" },
        deleteStatusCode := 200,
        deleteBody := { response_status := { status := "" } } }
      "Req" [] (some [])
      { subject := "Req one", status_name := "Open", short_description := "", id := 1 }
      (by decide)⟩

/-- C3: a patch is selected by the patch selector iff some requested
patch-type label has every one of its whitespace-delimited tokens among
the whitespace-delimited tokens of the patch description (token-subset,
order-independent, case-sensitive) and the missing count of the patch,
read as an integer, is strictly positive. -/
theorem selected_patches_iff (all_patches : List Patch)
    (patch_types : List String) (p : Patch) :
    p ∈ selected_patches all_patches patch_types ↔
      p ∈ all_patches ∧
        (∃ label ∈ patch_types,
          ∀ t ∈ pySplit label, t ∈ pySplit p.patch_description) ∧
        p.missing > 0 := by
  simp [selected_patches, token_subset, List.mem_filter, and_assoc]

/-- Witness for C3: a concrete catalog entry selected by a token-subset
match whose label tokens appear reordered inside a longer description. -/
theorem selected_patches_iff_witness :
    ({ patch_description := "Security Cumulative Update for Windows Server 2019",
       missing := 2, patch_id := 5 } : Patch) ∈
      selected_patches
        [{ patch_description := "Security Cumulative Update for Windows Server 2019",
           missing := 2, patch_id := 5 }]
        ["Cumulative Update for Windows Server"] :=
  (selected_patches_iff
    [{ patch_description := "Security Cumulative Update for Windows Server 2019",
       missing := 2, patch_id := 5 }]
    ["Cumulative Update for Windows Server"]
    { patch_description := "Security Cumulative Update for Windows Server 2019",
      missing := 2, patch_id := 5 }).mpr (by decide)

/-- C4: the patch-config existence matcher reports a match iff some
remote config has a collection name starting with the desired name, is
not soft-deleted, has a total target count equal to the number of
requested hosts, and has a status label other than the terminal executed
label; in particular the verdict depends on the host list only through
its length. -/
theorem check_if_config_exists_spec (config_name : String)
    (configs : List ViewConfig) (hosts hosts2 : List String) :
    (check_if_config_exists config_name configs hosts = true ↔
      ∃ c ∈ configs,
        py_startswith c.collection_name config_name = true ∧
        c.is_collection_deleted = false ∧
        c.total_target_count = hosts.length ∧
        c.status_label ≠ "dc.db.config.status.executed") ∧
    (hosts.length = hosts2.length →
      check_if_config_exists config_name configs hosts =
        check_if_config_exists config_name configs hosts2) := by
  constructor
  · simp [check_if_config_exists, and_assoc, Bool.not_eq_true']
  · intro h
    unfold check_if_config_exists
    rw [h]

/-- Witness for C4: the matcher verdict is unchanged when the host list
["a"] is replaced by the different equal-length host list ["b"]. -/
theorem check_if_config_exists_spec_witness :
    check_if_config_exists "n"
        [{ collection_name := "n one", is_collection_deleted := false,
           total_target_count := 1, status_label := "s" }] ["a"] =
      check_if_config_exists "n"
        [{ collection_name := "n one", is_collection_deleted := false,
           total_target_count := 1, status_label := "s" }] ["b"] :=
  (check_if_config_exists_spec "n"
    [{ collection_name := "n one", is_collection_deleted := false,
       total_target_count := 1, status_label := "s" }] ["a"] ["b"]).2 (by decide)

/-- C5 (amended): the resolved resource ids are exactly ids of inventory
entries whose resource name is among the requested hosts; when the
inventory has pairwise distinct resource names the result has at most as
many entries as the host list; and permuting the inventory permutes the
output (same ids as a multiset).  The bound can fail for inventories that
repeat a resource name, and the output list order follows the inventory
order. -/
theorem get_resource_ids_spec (all_systems all_systems2 : List SystemEntry)
    (hosts : List String) :
    (∀ i ∈ get_resource_ids_for_patching all_systems hosts,
      ∃ e ∈ all_systems, e.resource_name ∈ hosts ∧ e.resource_id = i) ∧
    ((all_systems.map SystemEntry.resource_name).Nodup →
      (get_resource_ids_for_patching all_systems hosts).length ≤ hosts.length) ∧
    (all_systems.Perm all_systems2 →
      (get_resource_ids_for_patching all_systems hosts).Perm
        (get_resource_ids_for_patching all_systems2 hosts)) := by
  refine ⟨?_, ?_, ?_⟩
  · intro i hi
    simp only [get_resource_ids_for_patching, List.mem_map, List.mem_filter] at hi
    obtain ⟨e, ⟨he, hname⟩, hid⟩ := hi
    exact ⟨e, he, by simpa using hname, hid⟩
  · intro hnd
    unfold get_resource_ids_for_patching
    rw [List.length_map]
    have hsl : ((all_systems.filter fun x => hosts.contains x.resource_name).map
        SystemEntry.resource_name).Sublist (all_systems.map SystemEntry.resource_name) :=
      (List.filter_sublist _).map _
    have hnd2 : ((all_systems.filter fun x => hosts.contains x.resource_name).map
        SystemEntry.resource_name).Nodup := List.Nodup.sublist hsl hnd
    have hsubset : ((all_systems.filter fun x => hosts.contains x.resource_name).map
        SystemEntry.resource_name).toFinset ⊆ hosts.toFinset := by
      intro a ha
      simp only [List.mem_toFinset, List.mem_map, List.mem_filter] at ha ⊢
      obtain ⟨e, ⟨_, hmem⟩, rfl⟩ := ha
      simpa using hmem
    calc (all_systems.filter fun x => hosts.contains x.resource_name).length
        = ((all_systems.filter fun x => hosts.contains x.resource_name).map
            SystemEntry.resource_name).length := (List.length_map _ _).symm
      _ = ((all_systems.filter fun x => hosts.contains x.resource_name).map
            SystemEntry.resource_name).toFinset.card :=
          (List.toFinset_card_of_nodup hnd2).symm
      _ ≤ hosts.toFinset.card := Finset.card_le_card hsubset
      _ ≤ hosts.length := hosts.toFinset_card_le
  · intro hperm
    exact (hperm.filter _).map _

/-- Witness for C5: a duplicate-free inventory resolves at most as many
ids as there are hosts, and a concrete inventory permutation permutes the
resolved ids. -/
theorem get_resource_ids_spec_witness :
    (get_resource_ids_for_patching
        [{ resource_name := "a", resource_id := 1 },
         { resource_name := "b", resource_id := 2 }] ["a", "b"]).length ≤ 2 ∧
    (get_resource_ids_for_patching
        [{ resource_name := "a", resource_id := 1 },
         { resource_name := "b", resource_id := 2 }] ["a", "b"]).Perm
      (get_resource_ids_for_patching
        [{ resource_name := "b", resource_id := 2 },
         { resource_name := "a", resource_id := 1 }] ["a", "b"]) :=
  ⟨(get_resource_ids_spec
      [{ resource_name := "a", resource_id := 1 },
       { resource_name := "b", resource_id := 2 }]
      [{ resource_name := "a", resource_id := 1 },
       { resource_name := "b", resource_id := 2 }] ["a", "b"]).2.1 (by decide),
   (get_resource_ids_spec
      [{ resource_name := "a", resource_id := 1 },
       { resource_name := "b", resource_id := 2 }]
      [{ resource_name := "b", resource_id := 2 },
       { resource_name := "a", resource_id := 1 }] ["a", "b"]).2.2 (by decide)⟩

/-- Counterexample for C5 as stated: an inventory that lists the resource
name "a" twice yields two resolved ids for the single requested host, so
the output size exceeds the host-list size. -/
theorem get_resource_ids_counterexample :
    (get_resource_ids_for_patching
        [{ resource_name := "a", resource_id := 1 },
         { resource_name := "a", resource_id := 2 }] ["a"]).length = 2 ∧
    (["a"] : List String).length = 1 := by decide

/-- C6: in the ticket module with desired state absent, a missing ticket
yields changed=false, failed=false with no delete call; an existing
ticket yields exactly one delete call, with changed=true and failed=false
precisely when the delete transport succeeds (HTTP 200/201) and the
decoded body satisfies response_status.status = "success", and
changed=false with failed=true otherwise. -/
theorem absent_delete_classification (env : TicketEnv) (nm : String)
    (hosts : List String) (pts : Option (List String)) :
    (find_request nm hosts pts env.requests = Except.ok none →
      run_ticket_module env nm hosts pts "absent" =
        { changed := false, failed := false, postCalls := 0, deleteCalls := 0 }) ∧
    (∀ req, find_request nm hosts pts env.requests = Except.ok (some req) →
      (run_ticket_module env nm hosts pts "absent").deleteCalls = 1 ∧
      (((run_ticket_module env nm hosts pts "absent").changed = true ∧
          (run_ticket_module env nm hosts pts "absent").failed = false) ↔
        ((env.deleteStatusCode = 200 ∨ env.deleteStatusCode = 201) ∧
          env.deleteBody.response_status.status = "success")) ∧
      (¬((env.deleteStatusCode = 200 ∨ env.deleteStatusCode = 201) ∧
          env.deleteBody.response_status.status = "success") →
        (run_ticket_module env nm hosts pts "absent").changed = false ∧
        (run_ticket_module env nm hosts pts "absent").failed = true)) := by
  constructor
  · intro hfind
    simp [run_ticket_module, hfind]
  · intro req hfind
    by_cases hsc : env.deleteStatusCode = 200 ∨ env.deleteStatusCode = 201
    · have hdel : delete_tms_ticket env.deleteStatusCode env.deleteBody =
          Except.ok env.deleteBody := by
        unfold delete_tms_ticket
        exact if_pos hsc
      by_cases hst : env.deleteBody.response_status.status = "success"
      · refine ⟨?_, ?_, ?_⟩ <;> simp [run_ticket_module, hfind, hdel, hst, hsc]
      · refine ⟨?_, ?_, ?_⟩ <;> simp [run_ticket_module, hfind, hdel, hst, hsc]
    · have hdel : delete_tms_ticket env.deleteStatusCode env.deleteBody =
          Except.error () := by
        unfold delete_tms_ticket
        exact if_neg hsc
      refine ⟨?_, ?_, ?_⟩ <;> simp [run_ticket_module, hfind, hdel, hsc]

/-- Witness for C6: a concrete absent-state run that deletes an existing
matching ticket through a successful delete response. -/
theorem absent_delete_classification_witness :
    ((run_ticket_module
        { requests := [{ subject := "Req one", status_name := "Open",
                         short_description := "", id := 1 }],
          createStatusCode := 200,
          createBody := { request := { status := "", error_code := "" }, status := "" },
          deleteStatusCode := 200,
          deleteBody := { response_status := { status := "success" } } }
        "Req" [] (some []) "absent").deleteCalls = 1) ∧
    ((run_ticket_module
        { requests := [{ subject := "Req one", status_name := "Open",
                         short_description := "", id := 1 }],
          createStatusCode := 200,
          createBody := { request := { status := "", error_code := "" }, status := "" },
          deleteStatusCode := 200,
          deleteBody := { response_status := { status := "success" } } }
        "Req" [] (some []) "absent").changed = true) :=
  ⟨((absent_delete_classification
      { requests := [{ subject := "Req one", status_name := "Open",
                       short_description := "", id := 1 }],
        createStatusCode := 200,
        createBody := { request := { status := "", error_code := "" }, status := "" },
        deleteStatusCode := 200,
        deleteBody := { response_status := { status := "success" } } }
      "Req" [] (some [])).2
      { subject := "Req one", status_name := "Open", short_description := "", id := 1 }
      (by decide)).1,
   (((absent_delete_classification
      { requests := [{ subject := "Req one", status_name := "Open",
                       short_description := "", id := 1 }],
        createStatusCode := 200,
        createBody := { request := { status := "", error_code := "" }, status := "" },
        deleteStatusCode := 200,
        deleteBody := { response_status := { status := "success" } } }
      "Req" [] (some [])).2
      { subject := "Req one", status_name := "Open", short_description := "", id := 1 }
      (by decide)).2.1.mpr (by decide)).1⟩

/-- Evaluation of the `find_request` condition on a single request when
`patch_types` is a real list: all four conjuncts collapse to one boolean. -/
theorem request_check_some_eq (request_name : String)
    (hosts patch_types : List String) (r : Request) :
    request_check request_name hosts (some patch_types) r =
      Except.ok (py_startswith r.subject request_name
        && r.status_name == "Open"
        && (hosts.all fun s => py_substr s r.short_description)
        && (patch_types.all fun s => py_substr s r.short_description)) := by
  unfold request_check
  cases h1 : py_startswith r.subject request_name <;>
    cases h2 : r.status_name == "Open" <;>
      cases h3 : (hosts.all fun s => py_substr s r.short_description) <;>
        simp [h1, h2, h3]

/-- C7: with a patch-type list supplied, the ticket existence matcher
returns the first request whose subject starts with the desired name,
whose status name is "Open", and whose short description contains every
requested host and every requested patch-type label as a substring, and
reports non-existence when no request satisfies all the conditions. -/
theorem find_request_spec (request_name : String)
    (hosts patch_types : List String) (requests : List Request) :
    find_request request_name hosts (some patch_types) requests =
      Except.ok (requests.find? fun r =>
        py_startswith r.subject request_name
          && r.status_name == "Open"
          && (hosts.all fun s => py_substr s r.short_description)
          && (patch_types.all fun s => py_substr s r.short_description)) := by
  induction requests with
  | nil => rfl
  | cons r rs ih =>
    simp only [find_request, request_check_some_eq]
    cases hb : (py_startswith r.subject request_name
        && r.status_name == "Open"
        && (hosts.all fun s => py_substr s r.short_description)
        && (patch_types.all fun s => py_substr s r.short_description)) with
    | true => simp [List.find?_cons_of_pos, hb]
    | false => simp [List.find?_cons_of_neg, hb, ih]

/-- C8: with desired state present and no existing config, a missing
deployment policy fails the run with changed=false and no installpatch
POST; a resolved policy is the first collection entry whose template name
equals the requested name exactly, and the POSTed payload carries its
template id together with the selected patch ids, resolved resource ids
and config name and description. -/
theorem policy_resolution_spec (env : PatchEnv) (nm ds pn : String)
    (hosts pts : List String)
    (hconf : check_if_config_exists nm env.viewconfig hosts = false) :
    (find_policy env.deploymentpolicies pn = none →
      run_patch_module env nm ds pn hosts pts "present" =
        { changed := false, failed := true, postCalls := 0 }) ∧
    (∀ pol, find_policy env.deploymentpolicies pn = some pol →
      pol ∈ env.deploymentpolicies ∧ pol.template_name = pn ∧
      patch_hosts env nm ds pn hosts pts =
        Except.ok
          ({ PatchIDs := (selected_patches env.allpatches pts).map fun x => x.patch_id
             ResourceIDs := get_resource_ids_for_patching env.allsystems hosts
             ConfigName := nm
             ConfigDescription := ds
             actionToPerform := "Deploy"
             DeploymentPolicyTemplateID := pol.template_id }, env.createResp)) := by
  constructor
  · intro hnone
    simp [run_patch_module, patch_hosts, hconf, hnone]
  · intro pol hsome
    have hsome2 : env.deploymentpolicies.find?
        (fun x => x.template_name == pn) = some pol := hsome
    refine ⟨List.mem_of_find?_eq_some hsome2, ?_, ?_⟩
    · have hp := List.find?_some hsome2
      simpa using hp
    · simp [patch_hosts, hsome]

/-- Witness for C8: a run over an empty policy collection fails without
issuing the POST, and a singleton policy collection resolves to its entry
and produces the full payload. -/
theorem policy_resolution_spec_witness :
    run_patch_module
        { viewconfig := [], allsystems := [], allpatches := [],
          deploymentpolicies := [],
          createResp := { status := "", error_code := "" } }
        "n" "d" "p" ["h"] [] "present" =
      { changed := false, failed := true, postCalls := 0 } ∧
    patch_hosts
        { viewconfig := [], allsystems := [], allpatches := [],
          deploymentpolicies := [{ template_name := "p", template_id := 9 }],
          createResp := { status := "", error_code := "" } }
        "n" "d" "p" ["h"] [] =
      Except.ok
        ({ PatchIDs := [], ResourceIDs := [], ConfigName := "n",
           ConfigDescription := "d", actionToPerform := "Deploy",
           DeploymentPolicyTemplateID := 9 },
         { status := "", error_code := "" }) :=
  ⟨(policy_resolution_spec
      { viewconfig := [], allsystems := [], allpatches := [],
        deploymentpolicies := [],
        createResp := { status := "", error_code := "" } }
      "n" "d" "p" ["h"] [] (by decide)).1 (by decide),
   ((policy_resolution_spec
      { viewconfig := [], allsystems := [], allpatches := [],
        deploymentpolicies := [{ template_name := "p", template_id := 9 }],
        createResp := { status := "", error_code := "" } }
      "n" "d" "p" ["h"] [] (by decide)).2
      { template_name := "p", template_id := 9 } (by decide)).2.2⟩

/-- Evaluation of the `find_request` condition on a single request when
`patch_types` was omitted: iterating `None` raises, but only after the
subject, status and host-containment conjuncts all held. -/
theorem request_check_none_eq (request_name : String) (hosts : List String)
    (r : Request) :
    request_check request_name hosts none r =
      (if py_startswith r.subject request_name && r.status_name == "Open"
          && (hosts.all fun s => py_substr s r.short_description)
        then Except.error () else Except.ok false) := by
  unfold request_check
  cases h1 : py_startswith r.subject request_name <;>
    cases h2 : r.status_name == "Open" <;>
      cases h3 : (hosts.all fun s => py_substr s r.short_description) <;>
        simp [h1, h2, h3]

/-- Matching of `find_request` without patch types over a whole request
list: it raises exactly when some request passes the three leading
conjuncts, and reports non-existence otherwise. -/
theorem find_request_none_eq (request_name : String) (hosts : List String)
    (requests : List Request) :
    find_request request_name hosts none requests =
      (if requests.any fun r =>
          py_startswith r.subject request_name && r.status_name == "Open"
            && (hosts.all fun s => py_substr s r.short_description)
        then Except.error () else Except.ok none) := by
  induction requests with
  | nil => rfl
  | cons r rs ih =>
    simp only [find_request, request_check_none_eq]
    cases hb : (py_startswith r.subject request_name && r.status_name == "Open"
        && (hosts.all fun s => py_substr s r.short_description)) with
    | true => simp [List.any_cons, hb]
    | false => simp [List.any_cons, hb, ih]

/-- C9 (amended): with the patch_types parameter omitted, the existence
check raises, and the whole invocation fails with no mutating call,
exactly when some request passes the three leading conjuncts evaluated
left to right with short-circuiting: its subject starts with the desired
name, its status name is "Open", and its short description contains every
requested hostname; when no request passes those three checks the
omission causes no failure in the existence check, which reports
non-existence. -/
theorem find_request_missing_patch_types (env : TicketEnv) (request_name : String)
    (hosts : List String) (state : String) :
    ((∃ r ∈ env.requests,
        py_startswith r.subject request_name = true ∧ r.status_name = "Open" ∧
          ∀ s ∈ hosts, py_substr s r.short_description = true) →
      run_ticket_module env request_name hosts none state =
        { changed := false, failed := true, postCalls := 0, deleteCalls := 0 }) ∧
    ((∀ r ∈ env.requests,
        ¬(py_startswith r.subject request_name = true ∧ r.status_name = "Open" ∧
          ∀ s ∈ hosts, py_substr s r.short_description = true)) →
      find_request request_name hosts none env.requests = Except.ok none) := by
  constructor
  · intro hex
    have hany : (env.requests.any fun r =>
        py_startswith r.subject request_name && r.status_name == "Open"
          && (hosts.all fun s => py_substr s r.short_description)) = true := by
      simp only [List.any_eq_true, Bool.and_eq_true, beq_iff_eq, List.all_eq_true]
      obtain ⟨r, hr, h1, h2, h3⟩ := hex
      exact ⟨r, hr, ⟨h1, h2⟩, h3⟩
    have hfind : find_request request_name hosts none env.requests =
        Except.error () := by
      rw [find_request_none_eq, if_pos]
      simpa using hany
    simp [run_ticket_module, hfind]
  · intro hall
    have hany : (env.requests.any fun r =>
        py_startswith r.subject request_name && r.status_name == "Open"
          && (hosts.all fun s => py_substr s r.short_description)) = false := by
      rw [List.any_eq_false]
      intro r hr hcon
      simp only [Bool.and_eq_true, beq_iff_eq, List.all_eq_true] at hcon
      obtain ⟨⟨h1, h2⟩, h3⟩ := hcon
      exact hall r hr ⟨h1, h2, h3⟩
    rw [find_request_none_eq, if_neg]
    simp [hany]

/-- Witness for C9 (amended): with patch_types omitted, a request passing
all three leading checks makes the run fail, and a request list passing
none of them leaves the existence check reporting non-existence. -/
theorem find_request_missing_patch_types_witness :
    run_ticket_module
        { requests := [{ subject := "Req one", status_name := "Open",
                         short_description := "updates for h1 done", id := 1 }],
          createStatusCode := 200,
          createBody := { request := { status := "ok", error_code := "" }, status := "" },
          deleteStatusCode := 200,
          deleteBody := { response_status := { status := "success" } } }
        "Req" ["h1"] none "present" =
      { changed := false, failed := true, postCalls := 0, deleteCalls := 0 } ∧
    find_request "Req" ["h1"] none
        [{ subject := "Other", status_name := "Open",
           short_description := "updates for h1 done", id := 2 }] =
      Except.ok none :=
  ⟨(find_request_missing_patch_types
      { requests := [{ subject := "Req one", status_name := "Open",
                       short_description := "updates for h1 done", id := 1 }],
        createStatusCode := 200,
        createBody := { request := { status := "ok", error_code := "" }, status := "" },
        deleteStatusCode := 200,
        deleteBody := { response_status := { status := "success" } } }
      "Req" ["h1"] "present").1 (by decide),
   (find_request_missing_patch_types
      { requests := [{ subject := "Other", status_name := "Open",
                       short_description := "updates for h1 done", id := 2 }],
        createStatusCode := 200,
        createBody := { request := { status := "ok", error_code := "" }, status := "" },
        deleteStatusCode := 200,
        deleteBody := { response_status := { status := "success" } } }
      "Req" ["h1"] "present").2 (by decide)⟩

/-- Counterexample for C9 as stated: a request whose subject starts with
the desired name and whose status name is "Open" does not make the
existence check raise when the host-containment conjunct fails first, and
the invocation does not fail. -/
theorem find_request_missing_patch_types_counterexample :
    py_startswith "Req one" "Req" = true ∧
    find_request "Req" ["h1"] none
        [{ subject := "Req one", status_name := "Open",
           short_description := "", id := 1 }] =
      Except.ok none ∧
    (run_ticket_module
        { requests := [{ subject := "Req one", status_name := "Open",
                         short_description := "", id := 1 }],
          createStatusCode := 200,
          createBody := { request := { status := "ok", error_code := "" }, status := "" },
          deleteStatusCode := 200,
          deleteBody := { response_status := { status := "success" } } }
        "Req" ["h1"] none "present").failed = false := by decide

/-- C10: a successful HTTP 200/201 ticket create returns exactly the
object under the body top-level request envelope key, and the reconciler
classifies that unwrapped object, so whenever the unwrapped status
differs from "error" the outcome is changed=true and failed=false,
regardless of the body top-level status field. -/
theorem create_unwrap_classification (env : TicketEnv) (nm : String)
    (hosts : List String) (pts : Option (List String))
    (hfind : find_request nm hosts pts env.requests = Except.ok none)
    (hsc : env.createStatusCode = 200 ∨ env.createStatusCode = 201) :
    create_tms_request env.createStatusCode env.createBody =
      Except.ok env.createBody.request ∧
    (env.createBody.request.status ≠ "error" →
      run_ticket_module env nm hosts pts "present" =
        { changed := true, failed := false, postCalls := 1, deleteCalls := 0 }) := by
  have hcr : create_tms_request env.createStatusCode env.createBody =
      Except.ok env.createBody.request := by
    unfold create_tms_request
    exact if_pos hsc
  refine ⟨hcr, ?_⟩
  intro hst
  simp [run_ticket_module, hfind, hcr, hst]

/-- Witness for C10: a create body whose top-level status field says
"error" while the unwrapped request object does not still classifies as
changed=true. -/
theorem create_unwrap_classification_witness :
    run_ticket_module
        { requests := [],
          createStatusCode := 201,
          createBody := { request := { status := "registered", error_code := "" },
                          status := "error" },
          deleteStatusCode := 200,
          deleteBody := { response_status := { status := "" } } }
        "Req" ["h1"] (some ["T"]) "present" =
      { changed := true, failed := false, postCalls := 1, deleteCalls := 0 } :=
  (create_unwrap_classification
    { requests := [],
      createStatusCode := 201,
      createBody := { request := { status := "registered", error_code := "" },
                      status := "error" },
      deleteStatusCode := 200,
      deleteBody := { response_status := { status := "" } } }
    "Req" ["h1"] (some ["T"]) (by decide) (by decide)).2 (by decide)
